import Mathlib

/-
Verification of the utility layer of ComfyUI-DP-Ideogram-Character.

The development shallowly embeds the two source modules
(src/utils/api_client.py and src/utils/image_utils.py) in Lean.
Python ints are modelled as ℤ (or ℕ where the source value is a size),
Python floats as exact rationals ℚ (the source only manipulates small
decimal constants), and math.sqrt / numpy.sqrt as Real.sqrt.
Python functions that can raise are modelled with Except; functions that
swallow exceptions are total.  External effects (HTTP traffic, PNG
encoding, font rendering, PIL resampling) are modelled by explicit
parameters carrying the outcome of the effect.
-/

/-! Pricing: calculate_cost (src/utils/api_client.py lines 92-111) -/

/-- Base per-image USD prices, from the `base_prices` dict in
`calculate_cost`.  The float literals 0.03/0.06/0.09 denote exact
decimal values and are modelled as the rationals 3/100, 6/100, 9/100. -/
def base_prices : List (String × ℚ) :=
  [("Turbo", 3/100), ("Default", 6/100), ("Quality", 9/100)]

/-- Character-reference per-image USD prices, from the
`character_prices` dict in `calculate_cost`. -/
def character_prices : List (String × ℚ) :=
  [("Turbo", 4/100), ("Default", 7/100), ("Quality", 10/100)]

/-- Model of Python `dict.get(key, default)` over an association list.
Parsed Python dicts have unique keys, so first-match lookup is exact. -/
def dict_get (prices : List (String × ℚ)) (k : String) (dflt : ℚ) : ℚ :=
  match prices.find? (fun q => q.1 == k) with
  | some q => q.2
  | none => dflt

/-- Model of `calculate_cost(image_count, render_speed, use_character)`.
The source default `use_character=True` is supplied explicitly by
callers in this development. -/
def calculate_cost (image_count : ℤ) (render_speed : String)
    (use_character : Bool) : ℚ :=
  let prices := if use_character then character_prices else base_prices
  let price_per_image := dict_get prices render_speed (7/100)
  price_per_image * image_count

/-! Dimension validation: validate_image_dimensions
(src/utils/image_utils.py lines 69-84) -/

/-- Model of `validate_image_dimensions(width, height)`.  Python ints
are modelled as ℤ; the three f-string messages are reproduced with
their constants substituted. -/
def validate_image_dimensions (width height : ℤ) : Bool × String :=
  let min_dim : ℤ := 256
  let max_dim : ℤ := 2048
  let max_pixels : ℤ := 4194304
  if width < min_dim ∨ height < min_dim then
    (false, "Image dimensions too small. Minimum dimension is 256px")
  else if width > max_dim ∨ height > max_dim then
    (false, "Image dimensions too large. Maximum dimension is 2048px")
  else if width * height > max_pixels then
    (false, "Image resolution too high. Maximum is 4194304 pixels")
  else
    (true, "Valid dimensions")

/-! JSON values and Python-semantics helpers -/

/-- Values produced by Python `json.loads` / `response.json()`.
Numbers are abstracted to integers (no claim depends on a numeric
payload); objects keep the parser's insertion order. -/
inductive Json where
  | str : String → Json
  | num : Int → Json
  | jbool : Bool → Json
  | null : Json
  | arr : List Json → Json
  | obj : List (String × Json) → Json

/-- Model of Python truthiness (`if value:`) for a parsed JSON value:
empty strings, zero, False, None, empty lists and empty dicts are
falsy. -/
def pyTruthy : Json → Bool
  | Json.str s => s ≠ ""
  | Json.num n => n ≠ 0
  | Json.jbool b => b
  | Json.null => false
  | Json.arr l => ¬ l.isEmpty
  | Json.obj l => ¬ l.isEmpty

/-- Whether the character list `pat` occurs at the head of `text`. -/
def charsStartWith : List Char → List Char → Bool
  | [], _ => true
  | _ :: _, [] => false
  | a :: as, b :: bs => a = b && charsStartWith as bs

/-- Whether the character list `pat` occurs anywhere inside `text`. -/
def charsContain (pat : List Char) : List Char → Bool
  | [] => pat.isEmpty
  | b :: bs => charsStartWith pat (b :: bs) || charsContain pat bs

/-- Model of Python `needle in s` for strings: substring containment. -/
def pyStrContains (s needle : String) : Bool :=
  charsContain needle.data s.data

/-- Model of the Python membership test `needle in value` on a parsed
JSON value, where `needle` is a string: key lookup for dicts, substring
test for strings, element equality for lists (a string compares equal
only to an equal string), and a TypeError for every other type. -/
def pyIn (needle : String) : Json → Except String Bool
  | Json.obj l => Except.ok (l.any (fun q => q.1 == needle))
  | Json.str s => Except.ok (pyStrContains s needle)
  | Json.arr l =>
    Except.ok (l.any (fun j =>
      match j with
      | Json.str t => t == needle
      | _ => false))
  | _ => Except.error "TypeError: argument is not iterable"

/-- Model of the Python subscript `value[k]` with a string key: dict
lookup (KeyError when absent), TypeError for every non-dict value. -/
def pyIndex : Json → String → Except String Json
  | Json.obj l, k =>
    match l.find? (fun q => q.1 == k) with
    | some q => Except.ok q.2
    | none => Except.error "KeyError"
  | _, _ => Except.error "TypeError: indices must be integers"

/-- JSON string escaping as performed by `json.dumps`: quotes,
backslashes and the common control characters. -/
def jsonEscapeChar (c : Char) : String :=
  if c = '"' then "\\\""
  else if c = '\\' then "\\\\"
  else if c = '\n' then "\\n"
  else if c = '\t' then "\\t"
  else if c = '\r' then "\\r"
  else String.singleton c

/-- Escape every character of a string for JSON serialization. -/
def jsonEscape (s : String) : String :=
  String.join (s.data.map jsonEscapeChar)

mutual

/-- Model of `json.dumps` with its default separators (", " between
items, ": " after keys). -/
def jsonDumps : Json → String
  | Json.str s => "\"" ++ jsonEscape s ++ "\""
  | Json.num n => toString n
  | Json.jbool b => if b then "true" else "false"
  | Json.null => "null"
  | Json.arr l => "[" ++ jsonDumpsArr l ++ "]"
  | Json.obj l => "\x7b" ++ jsonDumpsObj l ++ "\x7d"

/-- Comma-joined serialization of a JSON array body. -/
def jsonDumpsArr : List Json → String
  | [] => ""
  | [x] => jsonDumps x
  | x :: y :: xs => jsonDumps x ++ ", " ++ jsonDumpsArr (y :: xs)

/-- Comma-joined serialization of a JSON object body. -/
def jsonDumpsObj : List (String × Json) → String
  | [] => ""
  | [(k, v)] => "\"" ++ jsonEscape k ++ "\": " ++ jsonDumps v
  | (k, v) :: y :: xs =>
    "\"" ++ jsonEscape k ++ "\": " ++ jsonDumps v ++ ", " ++
      jsonDumpsObj (y :: xs)

end

mutual

/-- Model of Python `str(value)` on a parsed JSON value: strings pass
through unquoted, True/False/None use the Python literals, containers
use the repr of their elements (string elements single-quoted). -/
def pyStr : Json → String
  | Json.str s => s
  | Json.num n => toString n
  | Json.jbool b => if b then "True" else "False"
  | Json.null => "None"
  | Json.arr l => "[" ++ pyReprArr l ++ "]"
  | Json.obj l => "\x7b" ++ pyReprObj l ++ "\x7d"

/-- Model of Python `repr(value)` on a parsed JSON value; differs from
`pyStr` only on strings, which are single-quoted. -/
def pyRepr : Json → String
  | Json.str s => "\x27" ++ s ++ "\x27"
  | Json.num n => toString n
  | Json.jbool b => if b then "True" else "False"
  | Json.null => "None"
  | Json.arr l => "[" ++ pyReprArr l ++ "]"
  | Json.obj l => "\x7b" ++ pyReprObj l ++ "\x7d"

/-- Comma-joined repr of a Python list body. -/
def pyReprArr : List Json → String
  | [] => ""
  | [x] => pyRepr x
  | x :: y :: xs => pyRepr x ++ ", " ++ pyReprArr (y :: xs)

/-- Comma-joined repr of a Python dict body. -/
def pyReprObj : List (String × Json) → String
  | [] => ""
  | [(k, v)] => "\x27" ++ k ++ "\x27: " ++ pyRepr v
  | (k, v) :: y :: xs =>
    "\x27" ++ k ++ "\x27: " ++ pyRepr v ++ ", " ++ pyReprObj (y :: xs)

end

/-! API client: validate_api_key (src/utils/api_client.py
lines 55-73) and parse_api_error (lines 75-90) -/

/-- Outcome of one HTTP request as observed by the client: either a
response with a status code, or a raised network/timeout exception. -/
inductive NetResult where
  | resp : ℕ → NetResult
  | exn : String → NetResult

/-- Truthiness of the `check_quota()` result: `None` and falsy payloads
both fail the `if quota:` test. -/
def quota_truthy : Option Json → Bool
  | some q => pyTruthy q
  | none => false

/-- Model of `IdeogramAPIClient.validate_api_key`.  `quota` is the
value returned by `check_quota()` (which swallows its own exceptions),
and `models` is the outcome of `GET /v1/models`.  The source's
try/except wraps the whole body, but only the models request can
raise. -/
def validate_api_key (quota : Option Json) (models : NetResult) :
    Bool × String :=
  if quota_truthy quota then (true, "API key is valid")
  else
    match models with
    | NetResult.resp status =>
      if status = 200 then (true, "API key is valid")
      else if status = 401 then (false, "Invalid API key")
      else (true, "API key validation inconclusive")
    | NetResult.exn _ =>
      (true, "Could not validate API key (will try anyway)")

/-- A `requests.Response` as consumed by `parse_api_error`: the
outcome of `response.json()` (None when the body does not parse), the
raw text, and the status code.  When `body` is `some j`, `j` is the
JSON parse of `text`. -/
structure PyResponse where
  body : Option Json
  text : String
  status_code : ℕ

/-- Model of `parse_api_error(response)`.  The bare `except:` catches
both the JSON parse failure and the TypeErrors that the membership
tests and subscripts can raise on non-dict bodies, falling back to the
first 500 characters of the raw text, or "HTTP <status>" when the text
is empty. -/
def parse_api_error (r : PyResponse) : Json :=
  let fallback :=
    if r.text = "" then Json.str ("HTTP " ++ toString r.status_code)
    else Json.str (r.text.take 500)
  match r.body with
  | none => fallback
  | some error_data =>
    match pyIn "message" error_data with
    | Except.error _ => fallback
    | Except.ok true =>
      match pyIndex error_data "message" with
      | Except.ok v => v
      | Except.error _ => fallback
    | Except.ok false =>
      match pyIn "error" error_data with
      | Except.error _ => fallback
      | Except.ok true =>
        match pyIndex error_data "error" with
        | Except.error _ => fallback
        | Except.ok err =>
          match err with
          | Json.obj l2 =>
            match l2.find? (fun q => q.1 == "message") with
            | some q => q.2
            | none => Json.str (pyStr (Json.obj l2))
          | _ => Json.str (pyStr err)
      | Except.ok false => Json.str (jsonDumps error_data)

/-! Image utilities: ensure_rgb (src/utils/image_utils.py
lines 11-21) -/

/-- A PIL image: mode string, (width, height), and per-pixel RGBA
channels (the alpha component is meaningless for modes without an
alpha band). -/
structure PImg where
  mode : String
  size : ℕ × ℕ
  px : ℕ × ℕ → ℕ × ℕ × ℕ × ℕ

/-- Model of `PIL.Image.new(mode, size, color)` with an RGB color:
a uniformly filled image. -/
def imageNew (mode : String) (size : ℕ × ℕ) (color : ℕ × ℕ × ℕ) : PImg :=
  PImg.mk mode size (fun _ => (color.1, color.2.1, color.2.2, 255))

/-- One channel of PIL's masked paste: linear interpolation between the
background and the pasted value driven by the 0..255 mask. -/
def blendChannel (bg fg a : ℕ) : ℕ :=
  (bg * (255 - a) + fg * a) / 255

/-- The alpha band of an image, as produced by `image.split()[3]`. -/
def alphaBand (img : PImg) : ℕ × ℕ → ℕ :=
  fun p => (img.px p).2.2.2

/-- Model of `background.paste(image, mask=mask)` over the full canvas:
without a mask the pasted pixels replace the background; with a mask
each channel is blended by the mask value.  The pasted-onto image keeps
its own mode and size. -/
def pasteMask (bg fg : PImg) (mask : Option (ℕ × ℕ → ℕ)) : PImg :=
  PImg.mk bg.mode bg.size (fun p =>
    match mask with
    | none => fg.px p
    | some m =>
      (blendChannel (bg.px p).1 (fg.px p).1 (m p),
       blendChannel (bg.px p).2.1 (fg.px p).2.1 (m p),
       blendChannel (bg.px p).2.2.1 (fg.px p).2.2.1 (m p),
       255))

/-- Number of bands reported by `image.split()`: one per mode letter
(exact for the RGB / RGBA / L modes this code distinguishes). -/
def bandsCount (img : PImg) : ℕ := img.mode.length

/-- Model of `ensure_rgb(image)`.  `convert` stands for PIL's
`image.convert("RGB")`, an external library conversion. -/
def ensure_rgb (convert : PImg → String → PImg) (image : PImg) : PImg :=
  if image.mode ≠ "RGB" then
    if image.mode = "RGBA" then
      let background := imageNew "RGB" image.size (255, 255, 255)
      pasteMask background image
        (if bandsCount image = 4 then some (alphaBand image) else none)
    else convert image "RGB"
  else image

/-! resize_to_limit (src/utils/image_utils.py lines 23-42) -/

/-- The resize factor `sqrt(max_size_mb / current_size_mb) * 0.9` with
its deliberate 10% safety margin; numpy's float sqrt is modelled as
Real.sqrt. -/
noncomputable def resize_factor (max_size_mb current_size_mb : ℚ) : ℝ :=
  Real.sqrt ((max_size_mb : ℝ) / (current_size_mb : ℝ)) * 0.9

/-- One resized dimension: `max(int(d * factor), 256)`.  Python `int()`
truncates toward zero, which on these non-negative products equals the
floor. -/
noncomputable def scaled_dim (d : ℕ) (f : ℝ) : ℕ :=
  max (Int.toNat ⌊(d : ℝ) * f⌋) 256

/-- Model of `resize_to_limit(image, max_size_mb)` restricted to the
observable dimensions.  `current_size_mb` stands for the externally
measured PNG-encoded size `temp_buffer.tell() / (1024 * 1024)`; pixel
content and the LANCZOS resampling are outside the model, so the result
is the (width, height) of the returned image.  The source default is
`max_size_mb = 10`. -/
noncomputable def resize_to_limit (width height : ℕ)
    (current_size_mb max_size_mb : ℚ) : ℕ × ℕ :=
  if current_size_mb > max_size_mb then
    (scaled_dim width (resize_factor max_size_mb current_size_mb),
     scaled_dim height (resize_factor max_size_mb current_size_mb))
  else (width, height)

/-! calculate_aspect_ratio (src/utils/image_utils.py lines 44-67) -/

/-- Model of Python's true division on ints: raises ZeroDivisionError
on a zero divisor, otherwise yields the exact quotient (floats are
modelled as rationals). -/
def pyTrueDiv (a b : ℤ) : Except String ℚ :=
  if b = 0 then Except.error "ZeroDivisionError: division by zero"
  else Except.ok ((a : ℚ) / (b : ℚ))

/-- The `aspect_ratios` dict, in its Python 3.7+ insertion order.  Each
float value is the exact rational the source expression denotes (16/10
etc. kept unreduced; the literal 0.5 is exactly 1/2). -/
def aspect_ratios : List (String × ℚ) :=
  [("1:1", 1), ("4:3", 4/3), ("3:4", 3/4), ("16:9", 16/9),
   ("9:16", 9/16), ("3:2", 3/2), ("2:3", 2/3), ("5:4", 5/4),
   ("4:5", 4/5), ("16:10", 16/10), ("10:16", 10/16), ("3:1", 3),
   ("1:3", 1/3), ("2:1", 2), ("1:2", 1/2)]

/-- The scanning loop of Python `min(items, key=...)`: keeps the
current best and replaces it only on a strictly smaller key, so the
first minimum encountered wins ties. -/
def pyMinGo {α : Type} (key : α → ℚ) : α → List α → α
  | b, [] => b
  | b, x :: xs => if key x < key b then pyMinGo key x xs else pyMinGo key b xs

/-- Model of Python `min(iterable, key=...)`: ValueError on an empty
iterable, otherwise the scan from the first element. -/
def pyMin {α : Type} (key : α → ℚ) : List α → Except String α
  | [] => Except.error "ValueError: min() arg is an empty sequence"
  | x :: xs => Except.ok (pyMinGo key x xs)

/-- Model of `calculate_aspect_ratio(width, height)`: the division can
raise ZeroDivisionError; otherwise the label of the table entry closest
to the ratio is returned. -/
def calculate_aspect_ratio (width height : ℤ) : Except String String :=
  match pyTrueDiv width height with
  | Except.error e => Except.error e
  | Except.ok ratio =>
    match pyMin (fun x => |x.2 - ratio|) aspect_ratios with
    | Except.error e => Except.error e
    | Except.ok closest_ratio => Except.ok closest_ratio.1

/-! create_error_image (src/utils/image_utils.py lines 86-116) -/

/-- Accumulator loop for splitting a character list at newline
characters; the accumulator holds the current line reversed. -/
def splitLinesAux : List Char → List Char → List String
  | [], acc => [String.mk acc.reverse]
  | c :: cs, acc =>
    if c = '\n' then String.mk acc.reverse :: splitLinesAux cs []
    else splitLinesAux cs (c :: acc)

/-- Model of Python `message.split("\n")`: split at every newline with
no merging of adjacent separators; the empty string yields [""]. -/
def pySplitNL (s : String) : List String :=
  splitLinesAux s.data []

/-- The observable result of `create_error_image`: canvas size, fill
color, and the list of drawn lines with their (x, y) positions. -/
structure ErrImage where
  width : ℕ
  height : ℕ
  color : ℕ × ℕ × ℕ
  texts : List (String × ℤ × ℤ)

/-- Model of `create_error_image(message, width, height)`.  `render_ok`
abstracts whether the ImageDraw/ImageFont machinery is available and
succeeds (the source wraps the whole text-drawing block in a bare
try/except); `text_width` abstracts the font metric
`textbbox(...)[2] - textbbox(...)[0]`.  Python `//` is floor division,
modelled by `Int.fdiv`; the y offset starts at `height
// 2 - len(text_lines) * 25` (all split lines counted, before the cap
at 10) and advances by 25 per drawn line. -/
def create_error_image (message : String) (width height : ℕ)
    (render_ok : Bool) (text_width : String → ℤ) : ErrImage :=
  if render_ok then
    let text_lines := pySplitNL message
    let y_offset : ℤ := ((height / 2 : ℕ) : ℤ) - (text_lines.length : ℤ) * 25
    ErrImage.mk width height (128, 0, 0)
      ((text_lines.take 10).enum.map (fun pr =>
        (pr.2, Int.fdiv ((width : ℤ) - text_width pr.2) 2,
         y_offset + 25 * (pr.1 : ℤ))))
  else ErrImage.mk width height (128, 0, 0) []


/-! Theorems settling the claims, with their witnesses. -/

/-- C1: for every integer image count n, `calculate_cost` returns
0.04·n for ("Turbo", character pricing), 0.09·n for ("Quality", base
pricing), and 0.07·n for every render-speed string outside
{"Turbo", "Default", "Quality"}, regardless of the character flag. -/
theorem calculate_cost_pricing (n : ℤ) (s : String) :
    calculate_cost n "Turbo" true = 4/100 * n ∧
    calculate_cost n "Quality" false = 9/100 * n ∧
    (s ≠ "Turbo" → s ≠ "Default" → s ≠ "Quality" →
      ∀ b : Bool, calculate_cost n s b = 7/100 * n) := by
  refine ⟨rfl, rfl, ?_⟩
  intro h1 h2 h3 b
  have e1 : ("Turbo" == s) = false := beq_eq_false_iff_ne.mpr (Ne.symm h1)
  have e2 : ("Default" == s) = false := beq_eq_false_iff_ne.mpr (Ne.symm h2)
  have e3 : ("Quality" == s) = false := beq_eq_false_iff_ne.mpr (Ne.symm h3)
  cases b <;>
    simp [calculate_cost, dict_get, character_prices, base_prices,
      List.find?, e1, e2, e3]

/-- Witness for `calculate_cost_pricing` at the unknown tier "Fast". -/
theorem calculate_cost_pricing_witness :
    ("Fast" : String) ≠ "Turbo" ∧
    calculate_cost 2 "Fast" true = 7/100 * 2 ∧
    calculate_cost 2 "Fast" false = 7/100 * 2 := by
  refine ⟨by decide, ?_, ?_⟩
  · exact (calculate_cost_pricing 2 "Fast").2.2 (by decide) (by decide)
      (by decide) true
  · exact (calculate_cost_pricing 2 "Fast").2.2 (by decide) (by decide)
      (by decide) false

/-- C10: the pricing-table entries not covered by C1: base Turbo 0.03,
base Default 0.06, character Default 0.07, character Quality 0.10; and
under character pricing an unrecognized tier is priced like "Default". -/
theorem calculate_cost_table_rest (n : ℤ) (s : String) :
    calculate_cost n "Turbo" false = 3/100 * n ∧
    calculate_cost n "Default" false = 6/100 * n ∧
    calculate_cost n "Default" true = 7/100 * n ∧
    calculate_cost n "Quality" true = 10/100 * n ∧
    (s ≠ "Turbo" → s ≠ "Default" → s ≠ "Quality" →
      calculate_cost n s true = calculate_cost n "Default" true) := by
  refine ⟨rfl, rfl, rfl, rfl, ?_⟩
  intro h1 h2 h3
  have e1 : ("Turbo" == s) = false := beq_eq_false_iff_ne.mpr (Ne.symm h1)
  have e2 : ("Default" == s) = false := beq_eq_false_iff_ne.mpr (Ne.symm h2)
  have e3 : ("Quality" == s) = false := beq_eq_false_iff_ne.mpr (Ne.symm h3)
  simp [calculate_cost, dict_get, character_prices, List.find?, e1, e2, e3]

/-- Witness for `calculate_cost_table_rest` at the unknown tier "Slow". -/
theorem calculate_cost_table_rest_witness :
    ("Slow" : String) ≠ "Default" ∧
    calculate_cost 3 "Slow" true = calculate_cost 3 "Default" true := by
  exact ⟨by decide, (calculate_cost_table_rest 3 "Slow").2.2.2.2
    (by decide) (by decide) (by decide)⟩

/-- C4: `validate_image_dimensions` rejects a dimension below 256 or
above 2048 or a pixel count above 4194304, and accepts everything else;
(100,100) is rejected, (2048,2048) is accepted (exactly at the pixel
limit), (2049,2049) is rejected. -/
theorem validate_image_dimensions_spec (w h : ℤ) :
    ((validate_image_dimensions w h).1 = true ↔
      256 ≤ w ∧ 256 ≤ h ∧ w ≤ 2048 ∧ h ≤ 2048 ∧ w * h ≤ 4194304) ∧
    (w < 256 ∨ h < 256 →
      validate_image_dimensions w h =
        (false, "Image dimensions too small. Minimum dimension is 256px")) ∧
    (¬(w < 256 ∨ h < 256) → (2048 < w ∨ 2048 < h) →
      validate_image_dimensions w h =
        (false, "Image dimensions too large. Maximum dimension is 2048px")) ∧
    (¬(w < 256 ∨ h < 256) → ¬(2048 < w ∨ 2048 < h) → 4194304 < w * h →
      validate_image_dimensions w h =
        (false, "Image resolution too high. Maximum is 4194304 pixels")) ∧
    (¬(w < 256 ∨ h < 256) → ¬(2048 < w ∨ 2048 < h) → w * h ≤ 4194304 →
      validate_image_dimensions w h = (true, "Valid dimensions")) ∧
    validate_image_dimensions 100 100 =
      (false, "Image dimensions too small. Minimum dimension is 256px") ∧
    validate_image_dimensions 2048 2048 = (true, "Valid dimensions") ∧
    (validate_image_dimensions 2049 2049).1 = false := by
  refine ⟨?_, ?_, ?_, ?_, ?_, by decide, by decide, by decide⟩
  · simp only [validate_image_dimensions]
    split
    · next hsm =>
      simp only [Prod.fst]
      constructor
      · intro hc; exact absurd hc (by decide)
      · rintro ⟨h1, h2, -, -, -⟩
        rcases hsm with hw | hh
        · exact absurd h1 (not_le.mpr hw)
        · exact absurd h2 (not_le.mpr hh)
    · next hsm =>
      push_neg at hsm
      split
      · next hlg =>
        simp only [Prod.fst]
        constructor
        · intro hc; exact absurd hc (by decide)
        · rintro ⟨-, -, h3, h4, -⟩
          rcases hlg with hw | hh
          · exact absurd h3 (not_le.mpr hw)
          · exact absurd h4 (not_le.mpr hh)
      · next hlg =>
        push_neg at hlg
        split
        · next hpx =>
          simp only [Prod.fst]
          constructor
          · intro hc; exact absurd hc (by decide)
          · rintro ⟨-, -, -, -, h5⟩
            exact absurd h5 (not_le.mpr hpx)
        · next hpx =>
          simp only [Prod.fst, true_iff]
          exact ⟨hsm.1, hsm.2, hlg.1, hlg.2, not_lt.mp hpx⟩
  · intro hsm; simp only [validate_image_dimensions]
    rw [if_pos hsm]
  · intro hsm hlg; simp only [validate_image_dimensions]
    rw [if_neg hsm, if_pos hlg]
  · intro hsm hlg hpx; simp only [validate_image_dimensions]
    rw [if_neg hsm, if_neg hlg, if_pos hpx]
  · intro hsm hlg hpx; simp only [validate_image_dimensions]
    rw [if_neg hsm, if_neg hlg, if_neg (not_lt.mpr hpx)]

/-- Witness for `validate_image_dimensions_spec`: a 300 × 5000 image is
rejected as too large. -/
theorem validate_image_dimensions_spec_witness :
    ¬((300 : ℤ) < 256 ∨ (5000 : ℤ) < 256) ∧
    validate_image_dimensions 300 5000 =
      (false, "Image dimensions too large. Maximum dimension is 2048px") := by
  exact ⟨by decide, (validate_image_dimensions_spec 300 5000).2.2.1
    (by decide) (by decide)⟩

/-- A list on which `find?` succeeds satisfies `any`. -/
theorem any_of_find?_some {α : Type} (p : α → Bool) (l : List α) (a : α)
    (h : l.find? p = some a) : l.any p = true :=
  List.any_eq_true.mpr ⟨a, List.mem_of_find?_eq_some h, List.find?_some h⟩

/-- A list on which `find?` fails falsifies `any`. -/
theorem any_of_find?_none {α : Type} (p : α → Bool) (l : List α)
    (h : l.find? p = none) : l.any p = false := by
  rw [List.any_eq_false]
  intro a ha
  have := List.find?_eq_none.mp h a ha
  simpa using this

/-- C2: `validate_api_key` is fail-open: truthy quota data means
success; otherwise HTTP 200 on /v1/models means success, HTTP 401 is
the one explicit failure, every other status reports success with the
inconclusive message, and every raised exception reports success with
the disclaimer; the result is `false` exactly on HTTP 401 with no
quota data. -/
theorem validate_api_key_fail_open (quota : Option Json)
    (models : NetResult) :
    (quota_truthy quota = true →
      validate_api_key quota models = (true, "API key is valid")) ∧
    (quota_truthy quota = false → models = NetResult.resp 200 →
      validate_api_key quota models = (true, "API key is valid")) ∧
    (quota_truthy quota = false → models = NetResult.resp 401 →
      validate_api_key quota models = (false, "Invalid API key")) ∧
    (∀ status : ℕ, quota_truthy quota = false →
      models = NetResult.resp status → status ≠ 200 → status ≠ 401 →
      validate_api_key quota models =
        (true, "API key validation inconclusive")) ∧
    (∀ e : String, quota_truthy quota = false → models = NetResult.exn e →
      validate_api_key quota models =
        (true, "Could not validate API key (will try anyway)")) ∧
    ((validate_api_key quota models).1 = false ↔
      quota_truthy quota = false ∧ models = NetResult.resp 401) := by
  refine ⟨?_, ?_, ?_, ?_, ?_, ?_⟩
  · intro hq; simp [validate_api_key, hq]
  · intro hq hm; subst hm; simp [validate_api_key, hq]
  · intro hq hm; subst hm; simp [validate_api_key, hq]
  · intro status hq hm h200 h401; subst hm
    simp [validate_api_key, hq, h200, h401]
  · intro e hq hm; subst hm; simp [validate_api_key, hq]
  · constructor
    · intro hf
      by_cases hq : quota_truthy quota
      · simp [validate_api_key, hq] at hf
      · refine ⟨by simpa using hq, ?_⟩
        cases models with
        | resp status =>
          by_cases h200 : status = 200
          · subst h200; simp [validate_api_key, hq] at hf
          · by_cases h401 : status = 401
            · subst h401; rfl
            · simp [validate_api_key, hq, h200, h401] at hf
        | exn e => simp [validate_api_key, hq] at hf
    · rintro ⟨hq, hm⟩; subst hm; simp [validate_api_key, hq]

/-- Witness for `validate_api_key_fail_open`: with no quota data, a 500
response still reports success, a 401 fails, an exception reports the
disclaimer. -/
theorem validate_api_key_fail_open_witness :
    quota_truthy none = false ∧
    validate_api_key none (NetResult.resp 500) =
      (true, "API key validation inconclusive") ∧
    validate_api_key none (NetResult.resp 401) =
      (false, "Invalid API key") ∧
    validate_api_key none (NetResult.exn "timeout") =
      (true, "Could not validate API key (will try anyway)") ∧
    validate_api_key (some (Json.obj [("credits", Json.num 10)]))
      (NetResult.resp 500) = (true, "API key is valid") := by
  refine ⟨rfl, ?_, ?_, ?_, ?_⟩
  · exact (validate_api_key_fail_open none (NetResult.resp 500)).2.2.2.1
      500 rfl rfl (by decide) (by decide)
  · exact (validate_api_key_fail_open none (NetResult.resp 401)).2.2.1
      rfl rfl
  · exact (validate_api_key_fail_open none
      (NetResult.exn "timeout")).2.2.2.2.1 "timeout" rfl rfl
  · exact (validate_api_key_fail_open
      (some (Json.obj [("credits", Json.num 10)]))
      (NetResult.resp 500)).1 rfl

/-- C3: `parse_api_error` returns the value of a top-level `message`
key of an object body; else, for an `error` key, the string itself when
the value is a string, or the inner `message` when it is an object
containing one; else, when neither key is present, the serialization of
the whole object body; and for an unparsable body, the first 500
characters of the raw text, or "HTTP <status>" for empty text. -/
theorem parse_api_error_extraction (r : PyResponse) :
    (∀ (l : List (String × Json)) (q : String × Json),
      r.body = some (Json.obj l) →
      l.find? (fun q => q.1 == "message") = some q →
      parse_api_error r = q.2) ∧
    (∀ (l : List (String × Json)) (qe : String × Json) (s : String),
      r.body = some (Json.obj l) →
      l.find? (fun q => q.1 == "message") = none →
      l.find? (fun q => q.1 == "error") = some qe →
      qe.2 = Json.str s →
      parse_api_error r = Json.str s) ∧
    (∀ (l l2 : List (String × Json)) (qe q2 : String × Json),
      r.body = some (Json.obj l) →
      l.find? (fun q => q.1 == "message") = none →
      l.find? (fun q => q.1 == "error") = some qe →
      qe.2 = Json.obj l2 →
      l2.find? (fun q => q.1 == "message") = some q2 →
      parse_api_error r = q2.2) ∧
    (∀ (l : List (String × Json)),
      r.body = some (Json.obj l) →
      l.find? (fun q => q.1 == "message") = none →
      l.find? (fun q => q.1 == "error") = none →
      parse_api_error r = Json.str (jsonDumps (Json.obj l))) ∧
    (r.body = none → r.text ≠ "" →
      parse_api_error r = Json.str (r.text.take 500)) ∧
    (r.body = none → r.text = "" →
      parse_api_error r = Json.str ("HTTP " ++ toString r.status_code)) := by
  obtain ⟨body, text, status⟩ := r
  refine ⟨?_, ?_, ?_, ?_, ?_, ?_⟩
  · intro l q hbody hfind
    simp only at hbody; subst hbody
    have hany := any_of_find?_some _ l q hfind
    simp [parse_api_error, pyIn, pyIndex, hany, hfind]
  · intro l qe s hbody hmsg herr hstr
    simp only at hbody; subst hbody
    have hanym := any_of_find?_none _ l hmsg
    have hanye := any_of_find?_some _ l qe herr
    simp [parse_api_error, pyIn, pyIndex, hanym, hanye, herr, hstr, pyStr]
  · intro l l2 qe q2 hbody hmsg herr hobj hfind2
    simp only at hbody; subst hbody
    have hanym := any_of_find?_none _ l hmsg
    have hanye := any_of_find?_some _ l qe herr
    simp [parse_api_error, pyIn, pyIndex, hanym, hanye, herr, hobj, hfind2]
  · intro l hbody hmsg herr
    simp only at hbody; subst hbody
    have hanym := any_of_find?_none _ l hmsg
    have hanye := any_of_find?_none _ l herr
    simp [parse_api_error, pyIn, hanym, hanye]
  · intro hbody htext
    subst hbody
    simp only at htext
    simp [parse_api_error, htext]
  · intro hbody htext
    subst hbody
    simp only at htext
    subst htext
    simp [parse_api_error]

/-- Witness for `parse_api_error_extraction`: the four example bodies
from the specification. -/
theorem parse_api_error_extraction_witness :
    parse_api_error
      (PyResponse.mk (some (Json.obj [("message", Json.str "bad")]))
        "\x7b\"message\": \"bad\"\x7d" 400) = Json.str "bad" ∧
    parse_api_error
      (PyResponse.mk
        (some (Json.obj [("error", Json.obj [("message", Json.str "x")])]))
        "\x7b\"error\": \x7b\"message\": \"x\"\x7d\x7d" 400) =
      Json.str "x" ∧
    parse_api_error
      (PyResponse.mk (some (Json.obj [("error", Json.str "y")]))
        "\x7b\"error\": \"y\"\x7d" 400) = Json.str "y" ∧
    parse_api_error (PyResponse.mk none "" 500) = Json.str "HTTP 500" := by
  refine ⟨?_, ?_, ?_, ?_⟩
  · exact (parse_api_error_extraction _).1 _ ("message", Json.str "bad")
      rfl rfl
  · exact (parse_api_error_extraction _).2.2.1 _ _
      ("error", Json.obj [("message", Json.str "x")])
      ("message", Json.str "x") rfl rfl rfl rfl rfl
  · exact (parse_api_error_extraction _).2.1 _ ("error", Json.str "y") "y"
      rfl rfl rfl rfl
  · exact (parse_api_error_extraction _).2.2.2.2.2 rfl rfl

/-- C8: `ensure_rgb` returns an RGB image unchanged; composites an RGBA
image over an opaque white background using the alpha band as the blend
mask, yielding an RGB image of the same size; and converts any other
mode with the standard conversion.  The embedding is pure, so the input
image value is never mutated. -/
theorem ensure_rgb_spec (convert : PImg → String → PImg) (image : PImg) :
    (image.mode = "RGB" → ensure_rgb convert image = image) ∧
    (image.mode = "RGBA" →
      (ensure_rgb convert image).mode = "RGB" ∧
      (ensure_rgb convert image).size = image.size ∧
      (ensure_rgb convert image).px = fun p =>
        (blendChannel 255 (image.px p).1 (alphaBand image p),
         blendChannel 255 (image.px p).2.1 (alphaBand image p),
         blendChannel 255 (image.px p).2.2.1 (alphaBand image p),
         255)) ∧
    (image.mode ≠ "RGB" → image.mode ≠ "RGBA" →
      ensure_rgb convert image = convert image "RGB") := by
  refine ⟨?_, ?_, ?_⟩
  · intro hm; simp [ensure_rgb, hm]
  · intro hm
    have hbands : bandsCount image = 4 := by
      simp only [bandsCount, hm]
      rfl
    have hne : image.mode ≠ "RGB" := by rw [hm]; decide
    refine ⟨?_, ?_, ?_⟩ <;>
      simp [ensure_rgb, hm, hne, hbands, pasteMask, imageNew, alphaBand]
  · intro hne hna; simp [ensure_rgb, hne, hna]

/-- Witness for `ensure_rgb_spec`: a concrete RGB image passes through,
a concrete RGBA image is composited over white, and an L-mode image is
handed to the standard conversion. -/
theorem ensure_rgb_spec_witness :
    ensure_rgb (fun i _ => i)
      (PImg.mk "RGB" (2, 2) (fun _ => (1, 2, 3, 255))) =
      PImg.mk "RGB" (2, 2) (fun _ => (1, 2, 3, 255)) ∧
    (ensure_rgb (fun i _ => i)
      (PImg.mk "RGBA" (2, 2) (fun _ => (10, 20, 30, 0)))).mode = "RGB" ∧
    (ensure_rgb (fun i _ => i)
      (PImg.mk "RGBA" (2, 2) (fun _ => (10, 20, 30, 0)))).size = (2, 2) ∧
    ensure_rgb (fun i _ => i)
      (PImg.mk "L" (2, 2) (fun _ => (7, 7, 7, 255))) =
      PImg.mk "L" (2, 2) (fun _ => (7, 7, 7, 255)) := by
  refine ⟨?_, ?_, ?_, ?_⟩
  · exact (ensure_rgb_spec (fun i _ => i)
      (PImg.mk "RGB" (2, 2) (fun _ => (1, 2, 3, 255)))).1 rfl
  · exact ((ensure_rgb_spec (fun i _ => i)
      (PImg.mk "RGBA" (2, 2) (fun _ => (10, 20, 30, 0)))).2.1 rfl).1
  · exact ((ensure_rgb_spec (fun i _ => i)
      (PImg.mk "RGBA" (2, 2) (fun _ => (10, 20, 30, 0)))).2.1 rfl).2.1
  · exact (ensure_rgb_spec (fun i _ => i)
      (PImg.mk "L" (2, 2) (fun _ => (7, 7, 7, 255)))).2.2
      (by decide) (by decide)

/-- C6: `resize_to_limit` returns the image unchanged when the size
estimate does not exceed the limit; otherwise it performs exactly one
resize pass, scaling both dimensions by sqrt(max/current)·0.9, flooring
and clamping each to a minimum of 256, so the resized output is never
below 256px on either side. -/
theorem resize_to_limit_single_pass (w h : ℕ)
    (current_size_mb max_size_mb : ℚ) :
    (¬ current_size_mb > max_size_mb →
      resize_to_limit w h current_size_mb max_size_mb = (w, h)) ∧
    (current_size_mb > max_size_mb →
      resize_to_limit w h current_size_mb max_size_mb =
        (scaled_dim w (resize_factor max_size_mb current_size_mb),
         scaled_dim h (resize_factor max_size_mb current_size_mb)) ∧
      256 ≤ (resize_to_limit w h current_size_mb max_size_mb).1 ∧
      256 ≤ (resize_to_limit w h current_size_mb max_size_mb).2) := by
  refine ⟨?_, ?_⟩
  · intro hle; simp [resize_to_limit, hle]
  · intro hgt
    refine ⟨by simp [resize_to_limit, hgt], ?_, ?_⟩ <;>
      simp [resize_to_limit, hgt, scaled_dim]

/-- Witness for `resize_to_limit_single_pass`: a 20MB estimate against
a 10MB limit is resized with the clamped dimensions, and a 1MB estimate
is returned unchanged. -/
theorem resize_to_limit_single_pass_witness :
    ((20 : ℚ) > 10) ∧
    resize_to_limit 2000 1500 20 10 =
      (scaled_dim 2000 (resize_factor 10 20),
       scaled_dim 1500 (resize_factor 10 20)) ∧
    256 ≤ (resize_to_limit 2000 1500 20 10).1 ∧
    256 ≤ (resize_to_limit 2000 1500 20 10).2 ∧
    resize_to_limit 600 400 1 10 = (600, 400) := by
  refine ⟨by decide, ?_, ?_, ?_, ?_⟩
  · exact ((resize_to_limit_single_pass 2000 1500 20 10).2 (by decide)).1
  · exact ((resize_to_limit_single_pass 2000 1500 20 10).2 (by decide)).2.1
  · exact ((resize_to_limit_single_pass 2000 1500 20 10).2 (by decide)).2.2
  · exact (resize_to_limit_single_pass 600 400 1 10).1 (by decide)

/-- Unfolding step of `pyMinGo` when the new element has a strictly
smaller key. -/
theorem pyMinGo_cons_of_lt {α : Type} (key : α → ℚ) (b x : α)
    (xs : List α) (hx : key x < key b) :
    pyMinGo key b (x :: xs) = pyMinGo key x xs := by
  simp [pyMinGo, hx]

/-- Unfolding step of `pyMinGo` when the new element does not improve
on the current best. -/
theorem pyMinGo_cons_of_ge {α : Type} (key : α → ℚ) (b x : α)
    (xs : List α) (hx : ¬ key x < key b) :
    pyMinGo key b (x :: xs) = pyMinGo key b xs := by
  simp [pyMinGo, hx]

/-- A current best of key 0 survives a scan of non-negative keys. -/
theorem pyMinGo_of_key_zero {α : Type} (key : α → ℚ) :
    ∀ (xs : List α) (b : α), key b = 0 → (∀ x ∈ xs, 0 ≤ key x) →
      pyMinGo key b xs = b := by
  intro xs
  induction xs with
  | nil => intro b _ _; simp [pyMinGo]
  | cons x xs ih =>
    intro b hb hnn
    have hx : ¬ key x < key b := by
      rw [hb]; exact not_lt.mpr (hnn x (List.mem_cons_self x xs))
    rw [pyMinGo_cons_of_ge key b x xs hx]
    exact ih b hb (fun y hy => hnn y (List.mem_cons_of_mem x hy))

/-- The scan of Python `min` returns the first entry achieving the
minimal key: every entry before it in the scanned list has a strictly
larger key, and every entry after it has a key at least as large. -/
theorem pyMinGo_first_argmin {α : Type} (key : α → ℚ) :
    ∀ (xs : List α) (b : α), ∃ l₁ l₂,
      b :: xs = l₁ ++ pyMinGo key b xs :: l₂ ∧
      (∀ y ∈ l₁, key (pyMinGo key b xs) < key y) ∧
      (∀ y ∈ l₂, key (pyMinGo key b xs) ≤ key y) := by
  intro xs
  induction xs with
  | nil =>
    intro b
    exact ⟨[], [], by simp [pyMinGo], by simp, by simp⟩
  | cons x xs ih =>
    intro b
    by_cases hx : key x < key b
    · have hres := pyMinGo_cons_of_lt key b x xs hx
      obtain ⟨l₁, l₂, heq, h₁, h₂⟩ := ih x
      have hle : key (pyMinGo key x xs) ≤ key x := by
        cases l₁ with
        | nil =>
          simp only [List.nil_append] at heq
          injection heq with h1 _
          rw [← h1]
        | cons a l₁' =>
          simp only [List.cons_append] at heq
          injection heq with h1 _
          subst h1
          exact le_of_lt (h₁ x (List.mem_cons_self x l₁'))
      refine ⟨b :: l₁, l₂, ?_, ?_, ?_⟩
      · rw [hres, List.cons_append, ← heq]
      · intro y hy
        rw [hres]
        rcases List.mem_cons.mp hy with rfl | hyl
        · exact lt_of_le_of_lt hle hx
        · exact h₁ y hyl
      · intro y hy
        rw [hres]
        exact h₂ y hy
    · have hres := pyMinGo_cons_of_ge key b x xs hx
      obtain ⟨l₁, l₂, heq, h₁, h₂⟩ := ih b
      cases l₁ with
      | nil =>
        simp only [List.nil_append] at heq
        injection heq with h1 h2
        refine ⟨[], x :: xs, ?_, by simp, ?_⟩
        · rw [hres, ← h1, List.nil_append]
        · intro y hy
          rw [hres]
          rcases List.mem_cons.mp hy with rfl | hyl
          · rw [← h1]; exact not_lt.mp hx
          · exact h₂ y (h2 ▸ hyl)
      | cons a l₁' =>
        simp only [List.cons_append] at heq
        injection heq with h1 h2
        subst h1
        have hrb : key (pyMinGo key b xs) < key b :=
          h₁ b (List.mem_cons_self b l₁')
        refine ⟨b :: x :: l₁', l₂, ?_, ?_, ?_⟩
        · rw [hres]
          simp only [List.cons_append]
          rw [← h2]
        · intro y hy
          rw [hres]
          rcases List.mem_cons.mp hy with rfl | hy2
          · exact hrb
          · rcases List.mem_cons.mp hy2 with rfl | hy3
            · exact lt_of_lt_of_le hrb (not_lt.mp hx)
            · exact h₁ y (List.mem_cons_of_mem b hy3)
        · intro y hy
          rw [hres]
          exact h₂ y hy

/-- On a non-zero height the function reduces to the scan of the table
from its first entry. -/
theorem calculate_aspect_ratio_eval (w h : ℤ) (hne : h ≠ 0) :
    calculate_aspect_ratio w h =
      Except.ok ((pyMinGo (fun x => |x.2 - (w : ℚ) / (h : ℚ)|)
        ("1:1", 1) (aspect_ratios.drop 1)).1) := by
  simp [calculate_aspect_ratio, pyTrueDiv, hne, pyMin, aspect_ratios]

/-- C9: `calculate_aspect_ratio` raises ZeroDivisionError at height 0
and returns a label for every non-zero height. -/
theorem calculate_aspect_ratio_div_zero :
    (∀ w : ℤ, calculate_aspect_ratio w 0 =
      Except.error "ZeroDivisionError: division by zero") ∧
    (∀ w h : ℤ, h ≠ 0 → ∃ label : String,
      calculate_aspect_ratio w h = Except.ok label) := by
  constructor
  · intro w
    simp [calculate_aspect_ratio, pyTrueDiv]
  · intro w h hne
    exact ⟨_, calculate_aspect_ratio_eval w h hne⟩

/-- Witness for `calculate_aspect_ratio_div_zero` at heights 0 and 1. -/
theorem calculate_aspect_ratio_div_zero_witness :
    calculate_aspect_ratio 512 0 =
      Except.error "ZeroDivisionError: division by zero" ∧
    ((1 : ℤ) ≠ 0 ∧ ∃ label : String,
      calculate_aspect_ratio 512 1 = Except.ok label) := by
  exact ⟨calculate_aspect_ratio_div_zero.1 512,
    by decide, calculate_aspect_ratio_div_zero.2 512 1 (by decide)⟩

/-- C5: for a positive height, `calculate_aspect_ratio` returns the
label of the table entry whose value is closest to width/height, first
entry in table order winning ties; and 1920 × 1080 yields "16:9" while
100 × 100 yields "1:1". -/
theorem calculate_aspect_ratio_closest (w h : ℤ) (hh : 0 < h) :
    (∃ (p : String × ℚ) (l₁ l₂ : List (String × ℚ)),
      calculate_aspect_ratio w h = Except.ok p.1 ∧
      aspect_ratios = l₁ ++ p :: l₂ ∧
      (∀ q ∈ l₁, |p.2 - (w : ℚ) / (h : ℚ)| < |q.2 - (w : ℚ) / (h : ℚ)|) ∧
      (∀ q ∈ l₂, |p.2 - (w : ℚ) / (h : ℚ)| ≤ |q.2 - (w : ℚ) / (h : ℚ)|)) ∧
    calculate_aspect_ratio 1920 1080 = Except.ok "16:9" ∧
    calculate_aspect_ratio 100 100 = Except.ok "1:1" := by
  have htable : aspect_ratios = ("1:1", 1) :: aspect_ratios.drop 1 := rfl
  refine ⟨?_, ?_, ?_⟩
  · have hne : h ≠ 0 := ne_of_gt hh
    obtain ⟨l₁, l₂, heq, h₁, h₂⟩ :=
      pyMinGo_first_argmin
        (fun x : String × ℚ => |x.2 - (w : ℚ) / (h : ℚ)|)
        (aspect_ratios.drop 1) ("1:1", 1)
    refine ⟨pyMinGo (fun x => |x.2 - (w : ℚ) / (h : ℚ)|) ("1:1", 1)
      (aspect_ratios.drop 1), l₁, l₂,
      calculate_aspect_ratio_eval w h hne, ?_, h₁, h₂⟩
    nth_rewrite 1 [htable]
    exact heq
  · rw [calculate_aspect_ratio_eval 1920 1080 (by decide)]
    have e0 : ((1920 : ℤ) : ℚ) / ((1080 : ℤ) : ℚ) = 16/9 := by norm_num
    simp only [e0]
    have hd : aspect_ratios.drop 1 =
      [("4:3", (4:ℚ)/3), ("3:4", 3/4), ("16:9", 16/9),
       ("9:16", 9/16), ("3:2", 3/2), ("2:3", 2/3), ("5:4", 5/4),
       ("4:5", 4/5), ("16:10", 16/10), ("10:16", 10/16), ("3:1", 3),
       ("1:3", 1/3), ("2:1", 2), ("1:2", 1/2)] := rfl
    rw [hd]
    have h1 : |((4:ℚ)/3) - 16/9| < |((1:ℚ)) - 16/9| := by
      rw [abs_of_nonpos (by norm_num), abs_of_nonpos (by norm_num)]
      norm_num
    have h2 : ¬ |((3:ℚ)/4) - 16/9| < |((4:ℚ)/3) - 16/9| := by
      rw [not_lt, abs_of_nonpos (by norm_num), abs_of_nonpos (by norm_num)]
      norm_num
    have h3 : |((16:ℚ)/9) - 16/9| < |((4:ℚ)/3) - 16/9| := by
      rw [sub_self, abs_zero, abs_of_nonpos (by norm_num)]
      norm_num
    have hz : |((16:ℚ)/9) - 16/9| = (0:ℚ) := by rw [sub_self, abs_zero]
    rw [pyMinGo_cons_of_lt (fun x : String × ℚ => |x.2 - (16:ℚ)/9|)
        ("1:1", 1) ("4:3", 4/3) _ h1,
      pyMinGo_cons_of_ge (fun x : String × ℚ => |x.2 - (16:ℚ)/9|)
        ("4:3", 4/3) ("3:4", 3/4) _ h2,
      pyMinGo_cons_of_lt (fun x : String × ℚ => |x.2 - (16:ℚ)/9|)
        ("4:3", 4/3) ("16:9", 16/9) _ h3,
      pyMinGo_of_key_zero (fun x : String × ℚ => |x.2 - (16:ℚ)/9|)
        [("9:16", 9/16), ("3:2", 3/2), ("2:3", 2/3), ("5:4", 5/4),
         ("4:5", 4/5), ("16:10", 16/10), ("10:16", 10/16), ("3:1", 3),
         ("1:3", 1/3), ("2:1", 2), ("1:2", 1/2)]
        ("16:9", 16/9) hz (fun q _ => abs_nonneg _)]
  · rw [calculate_aspect_ratio_eval 100 100 (by decide)]
    have e0 : ((100 : ℤ) : ℚ) / ((100 : ℤ) : ℚ) = 1 := by norm_num
    simp only [e0]
    have hz : |((1:ℚ)) - 1| = (0:ℚ) := by rw [sub_self, abs_zero]
    rw [pyMinGo_of_key_zero (fun x : String × ℚ => |x.2 - (1:ℚ)|)
        (aspect_ratios.drop 1) ("1:1", 1) hz (fun q _ => abs_nonneg _)]

/-- Witness for `calculate_aspect_ratio_closest` at 1920 × 1080. -/
theorem calculate_aspect_ratio_closest_witness :
    (0 : ℤ) < 1080 ∧
    (∃ (p : String × ℚ) (l₁ l₂ : List (String × ℚ)),
      calculate_aspect_ratio 1920 1080 = Except.ok p.1 ∧
      aspect_ratios = l₁ ++ p :: l₂ ∧
      (∀ q ∈ l₁, |p.2 - ((1920 : ℤ) : ℚ) / ((1080 : ℤ) : ℚ)| <
        |q.2 - ((1920 : ℤ) : ℚ) / ((1080 : ℤ) : ℚ)|) ∧
      (∀ q ∈ l₂, |p.2 - ((1920 : ℤ) : ℚ) / ((1080 : ℤ) : ℚ)| ≤
        |q.2 - ((1920 : ℤ) : ℚ) / ((1080 : ℤ) : ℚ)|)) ∧
    calculate_aspect_ratio 1920 1080 = Except.ok "16:9" := by
  refine ⟨by decide, ?_, ?_⟩
  · exact (calculate_aspect_ratio_closest 1920 1080 (by decide)).1
  · exact (calculate_aspect_ratio_closest 1920 1080 (by decide)).2.1

/-- C7: `create_error_image` always returns a bitmap of exactly the
requested size filled with dark red (128, 0, 0); when text rendering
works it draws at most 10 lines (the message split on newlines), each
horizontally centered by the font metric, in a block of 25px-spaced
lines starting at height/2 minus 25 per split line; when text rendering
is unavailable or fails it returns the plain red bitmap with no drawn
text, and no error escapes. -/
theorem create_error_image_best_effort (message : String) (w h : ℕ)
    (render_ok : Bool) (tw : String → ℤ) :
    (create_error_image message w h render_ok tw).width = w ∧
    (create_error_image message w h render_ok tw).height = h ∧
    (create_error_image message w h render_ok tw).color = (128, 0, 0) ∧
    (render_ok = false →
      (create_error_image message w h render_ok tw).texts = []) ∧
    (render_ok = true →
      (create_error_image message w h render_ok tw).texts.length ≤ 10 ∧
      (create_error_image message w h render_ok tw).texts.map
        (fun t => t.1) = (pySplitNL message).take 10 ∧
      (∀ t ∈ (create_error_image message w h render_ok tw).texts,
        t.2.1 = Int.fdiv ((w : ℤ) - tw t.1) 2) ∧
      (create_error_image message w h render_ok tw).texts.map
        (fun t => t.2.2) =
        (List.range ((pySplitNL message).take 10).length).map
          (fun i : ℕ => ((h / 2 : ℕ) : ℤ) -
            ((pySplitNL message).length : ℤ) * 25 + 25 * (i : ℤ))) := by
  refine ⟨?_, ?_, ?_, ?_, ?_⟩
  · cases render_ok <;> rfl
  · cases render_ok <;> rfl
  · cases render_ok <;> rfl
  · intro hro; subst hro; rfl
  · intro hro; subst hro
    refine ⟨?_, ?_, ?_, ?_⟩
    · simp only [create_error_image, if_true, List.length_map,
        List.enum_length, List.length_take]
      exact min_le_left _ _
    · simp only [create_error_image, if_true, List.map_map]
      exact List.enum_map_snd _
    · intro t ht
      simp only [create_error_image, if_true] at ht
      obtain ⟨pr, hpr, rfl⟩ := List.mem_map.mp ht
      rfl
    · simp only [create_error_image, if_true, List.map_map]
      rw [← List.enum_map_fst (List.take 10 (pySplitNL message)),
        List.map_map]
      rfl

/-- Witness for `create_error_image_best_effort` on the two-line
message "ab\ncd" with and without text rendering. -/
theorem create_error_image_best_effort_witness :
    (create_error_image "ab\ncd" 512 512 true
      (fun s => 20 * (s.length : ℤ))).texts.map (fun t => t.1) =
      ["ab", "cd"] ∧
    (create_error_image "ab\ncd" 512 512 false
      (fun s => 20 * (s.length : ℤ))).texts = [] ∧
    (create_error_image "ab\ncd" 512 512 false
      (fun s => 20 * (s.length : ℤ))).width = 512 := by
  refine ⟨?_, ?_, ?_⟩
  · have hsp := ((create_error_image_best_effort "ab\ncd" 512 512 true
      (fun s => 20 * (s.length : ℤ))).2.2.2.2 rfl).2.1
    rw [hsp]
    rfl
  · exact (create_error_image_best_effort "ab\ncd" 512 512 false
      (fun s => 20 * (s.length : ℤ))).2.2.2.1 rfl
  · exact (create_error_image_best_effort "ab\ncd" 512 512 false
      (fun s => 20 * (s.length : ℤ))).1

